import Mathlib

/-!
Verification of the OS1 sandboxed-process execution engine.

Shallow embedding of the C sources:
- phase4 process_sandbox: secure_sandbox_fixed.c, capability_syscalls.c
- phase3 process_management/sandbox: secure_sandbox.c
- phase5 app_sandbox: app_sandbox.c
- phase4 security_monitor: security_monitor.c

System calls are modelled by an oracle `Env : Sys → Option Nat` deciding, per
call, whether the call succeeds (`none`) or fails with the given errno
(`some e`).  Each embedded C function returns its C return value (an `Int`,
0 on success, negative on failure) together with the ordered trace of system
calls it issued.
-/

namespace OS1

/-- errno EPERM (1). -/
def EPERM : Int := 1

/-- errno ESRCH (3). -/
def ESRCH : Int := 3

/-- errno EINVAL (22). -/
def EINVAL : Int := 22

/-- C EXIT_FAILURE, the code passed to `_exit` on every child-side failure. -/
def EXIT_FAILURE : Nat := 1

/-- One word of the Linux `__user_cap_data_struct` (capability_syscalls.c). -/
structure CapWord where
  effective : Nat
  permitted : Nat
  inheritable : Nat
deriving DecidableEq

/-- Resources named in the `setrlimit` calls of the sandbox sources. -/
inductive RRes where
  | as
  | cpu
  | fsize
  | nproc
  | nofile
deriving DecidableEq

/-- System calls issued by the embedded functions.  Mount sources/targets are
identified by position (`mountEntry i`, `mountBind i`) since the path strings
never influence control flow in the sources. -/
inductive Sys where
  | fork
  | unshare (flags : Nat)
  | mountRoot
  | mountTmp
  | mountEntry (idx : Nat) (flags : Nat)
  | mountBind (idx : Nat)
  | mountProc
  | chrootCall
  | chdirRoot
  | prctlNNP
  | seccompStrict
  | seccompFilter
  | capbsetDrop (c : Nat)
  | capget
  | capset (w0 : CapWord) (w1 : CapWord)
  | setrlimit (r : RRes) (cur : Nat) (max : Nat)
  | setgid (g : Nat)
  | setuid (u : Nat)
  | execCall
deriving DecidableEq

/-- Syscall oracle: `none` means the call succeeds, `some e` means it fails
and the process observes errno `e`. -/
def Env : Type := Sys → Option Nat

/-- An oracle is well-formed when every reported errno is positive, as POSIX
guarantees for failing calls. -/
def ErrnoEnv (env : Env) : Prop := ∀ s e, env s = some e → 0 < e

/-! ## Capability controller (capability_syscalls.c) -/

/-- The `__user_cap_data_struct[2]` payload that
`secureos_cap_drop_all_except` hands to `capset`: the array is read via
`capget`, cleared with `memset`, and then only the requested bits are set as
effective+permitted with inheritable zero (word 1 is written only when
`required_caps > 0xFFFFFFFF`, otherwise it keeps the memset zeros). -/
def dropAllExceptWords (required : Nat) : CapWord × CapWord :=
  if required ≠ 0 then
    (⟨required % 2 ^ 32, required % 2 ^ 32, 0⟩,
     if required > 0xFFFFFFFF then
       ⟨required / 2 ^ 32 % 2 ^ 32, required / 2 ^ 32 % 2 ^ 32, 0⟩
     else ⟨0, 0, 0⟩)
  else (⟨0, 0, 0⟩, ⟨0, 0, 0⟩)

/-- `secureos_cap_drop_all_except` (capability_syscalls.c:52):
capget, then capset with `dropAllExceptWords`.  A capget failure returns
`-errno`; a capset failure returns the raw syscall result `-1`. -/
def secureos_cap_drop_all_except (env : Env) (required : Nat) : Int × List Sys :=
  match env Sys.capget with
  | some e => (-(e : Int), [Sys.capget])
  | none =>
    let w := dropAllExceptWords required
    match env (Sys.capset w.1 w.2) with
    | some _ => (-1, [Sys.capget, Sys.capset w.1 w.2])
    | none => (0, [Sys.capget, Sys.capset w.1 w.2])

/-- `drop_all_capabilities_except` (secure_sandbox_fixed.c:93) delegates to
`secureos_cap_drop_all_except` (the audit print does not change the result). -/
def drop_all_capabilities_except (env : Env) (required : Nat) : Int × List Sys :=
  secureos_cap_drop_all_except env required

/-- Effective-set bit `i` (0 ≤ i < 64) of a two-word capability payload. -/
def capBitEff (w : CapWord × CapWord) (i : Nat) : Bool :=
  if i < 32 then w.1.effective.testBit i
  else if i < 64 then w.2.effective.testBit (i - 32)
  else false

/-- Permitted-set bit `i` of a two-word capability payload. -/
def capBitPerm (w : CapWord × CapWord) (i : Nat) : Bool :=
  if i < 32 then w.1.permitted.testBit i
  else if i < 64 then w.2.permitted.testBit (i - 32)
  else false

/-- Inheritable-set bit `i` of a two-word capability payload. -/
def capBitInh (w : CapWord × CapWord) (i : Nat) : Bool :=
  if i < 32 then w.1.inheritable.testBit i
  else if i < 64 then w.2.inheritable.testBit (i - 32)
  else false

/-! ## Seccomp installation paths -/

/-- `apply_seccomp_filter` (secure_sandbox_fixed.c:79): PR_SET_NO_NEW_PRIVS,
then strict-mode seccomp; each failure returns `-errno` at once. -/
def apply_seccomp_filter (env : Env) : Int × List Sys :=
  match env Sys.prctlNNP with
  | some e => (-(e : Int), [Sys.prctlNNP])
  | none =>
    match env Sys.seccompStrict with
    | some e => (-(e : Int), [Sys.prctlNNP, Sys.seccompStrict])
    | none => (0, [Sys.prctlNNP, Sys.seccompStrict])

/-- `apply_app_seccomp` (app_sandbox.c:85): PR_SET_NO_NEW_PRIVS, then
strict-mode seccomp. -/
def apply_app_seccomp (env : Env) : Int × List Sys :=
  match env Sys.prctlNNP with
  | some e => (-(e : Int), [Sys.prctlNNP])
  | none =>
    match env Sys.seccompStrict with
    | some e => (-(e : Int), [Sys.prctlNNP, Sys.seccompStrict])
    | none => (0, [Sys.prctlNNP, Sys.seccompStrict])

/-- `install_seccomp_filter` (phase3 secure_sandbox.c:43): PR_SET_NO_NEW_PRIVS,
then a BPF filter via PR_SET_SECCOMP; each failure returns `-1`. -/
def install_seccomp_filter (env : Env) : Int × List Sys :=
  match env Sys.prctlNNP with
  | some _ => (-1, [Sys.prctlNNP])
  | none =>
    match env Sys.seccompFilter with
    | some _ => (-1, [Sys.prctlNNP, Sys.seccompFilter])
    | none => (0, [Sys.prctlNNP, Sys.seccompFilter])

/-! ## Resource limits -/

/-- One guarded block of `apply_resource_limits` (secure_sandbox_fixed.c:100):
skip when the field is 0, otherwise `setrlimit` with soft = hard = value,
returning `-errno` immediately on failure. -/
def tryLimit (env : Env) (r : RRes) (v : Nat) (rest : Int × List Sys) : Int × List Sys :=
  if v = 0 then rest
  else
    match env (Sys.setrlimit r v v) with
    | some e => (-(e : Int), [Sys.setrlimit r v v])
    | none => (rest.1, Sys.setrlimit r v v :: rest.2)

/-- One unconditional block of `apply_app_resource_limits` (app_sandbox.c:99):
`setrlimit` with soft = hard = value, `-errno` immediately on failure. -/
def mandLimit (env : Env) (r : RRes) (v : Nat) (rest : Int × List Sys) : Int × List Sys :=
  match env (Sys.setrlimit r v v) with
  | some e => (-(e : Int), [Sys.setrlimit r v v])
  | none => (rest.1, Sys.setrlimit r v v :: rest.2)

/-- Limits struct of secure_sandbox.h. -/
structure SandboxLimits where
  max_memory : Nat
  max_cpu_time : Nat
  max_file_size : Nat
  max_processes : Nat
  max_open_files : Nat
deriving DecidableEq

/-- `apply_resource_limits` (secure_sandbox_fixed.c:100): the five guarded
setrlimit blocks in source order. -/
def apply_resource_limits (env : Env) (l : SandboxLimits) : Int × List Sys :=
  tryLimit env RRes.as l.max_memory
    (tryLimit env RRes.cpu l.max_cpu_time
      (tryLimit env RRes.fsize l.max_file_size
        (tryLimit env RRes.nproc l.max_processes
          (tryLimit env RRes.nofile l.max_open_files (0, [])))))

/-- Reference runner: apply a list of (resource, value) limits in order with
soft = hard, stopping at the first failure with its `-errno`. -/
def runLimits (env : Env) : List (RRes × Nat) → Int × List Sys
  | [] => (0, [])
  | (r, v) :: rest =>
    match env (Sys.setrlimit r v v) with
    | some e => (-(e : Int), [Sys.setrlimit r v v])
    | none => ((runLimits env rest).1, Sys.setrlimit r v v :: (runLimits env rest).2)

/-- The limits `apply_resource_limits` is expected to issue: each of the five
resources exactly when its policy field is non-zero, in source order. -/
def expectedLimits (l : SandboxLimits) : List (RRes × Nat) :=
  (if l.max_memory = 0 then [] else [(RRes.as, l.max_memory)]) ++
  ((if l.max_cpu_time = 0 then [] else [(RRes.cpu, l.max_cpu_time)]) ++
   ((if l.max_file_size = 0 then [] else [(RRes.fsize, l.max_file_size)]) ++
    ((if l.max_processes = 0 then [] else [(RRes.nproc, l.max_processes)]) ++
     ((if l.max_open_files = 0 then [] else [(RRes.nofile, l.max_open_files)]) ++ []))))

/-- Selector from a resource to the corresponding field of the limits
struct. -/
def limitField (l : SandboxLimits) : RRes → Nat
  | RRes.as => l.max_memory
  | RRes.cpu => l.max_cpu_time
  | RRes.fsize => l.max_file_size
  | RRes.nproc => l.max_processes
  | RRes.nofile => l.max_open_files

/-! ## Mount setup -/

/-- Mount spec of secure_sandbox.h (paths identified positionally). -/
structure SandboxMount where
  flags : Nat
  readonly : Bool
deriving DecidableEq

/-- Flags actually passed to `mount` for a policy mount: MS_RDONLY (1) is
ORed in when the readonly flag is set (secure_sandbox_fixed.c:64). -/
def mountFlags (m : SandboxMount) : Nat :=
  if m.readonly then m.flags ||| 1 else m.flags

/-- The custom-mount loop of `setup_sandbox_mounts` (secure_sandbox_fixed.c:63),
failing fast with `-errno`. -/
def applyMounts (env : Env) (idx : Nat) : List SandboxMount → Int × List Sys
  | [] => (0, [])
  | m :: ms =>
    match env (Sys.mountEntry idx (mountFlags m)) with
    | some e => (-(e : Int), [Sys.mountEntry idx (mountFlags m)])
    | none =>
      ((applyMounts env (idx + 1) ms).1,
       Sys.mountEntry idx (mountFlags m) :: (applyMounts env (idx + 1) ms).2)

/-- Sandbox policy of secure_sandbox.h (strings that never steer control flow
are elided; `program_nonempty` mirrors `config->program[0]`). -/
structure SandboxConfig where
  program_nonempty : Bool
  uid : Nat
  gid : Nat
  required_caps : Nat
  limits : SandboxLimits
  mounts : List SandboxMount
deriving DecidableEq

/-- `setup_sandbox_mounts` (secure_sandbox_fixed.c:46): remount root
private+recursive, mount a tmpfs on /tmp, then the policy mounts in order. -/
def setup_sandbox_mounts (env : Env) (cfg : SandboxConfig) : Int × List Sys :=
  match env Sys.mountRoot with
  | some e => (-(e : Int), [Sys.mountRoot])
  | none =>
    match env Sys.mountTmp with
    | some e => (-(e : Int), [Sys.mountRoot, Sys.mountTmp])
    | none =>
      ((applyMounts env 0 cfg.mounts).1,
       Sys.mountRoot :: Sys.mountTmp :: (applyMounts env 0 cfg.mounts).2)

/-! ## Privilege drop -/

/-- `change_to_sandbox_user` (secure_sandbox_fixed.c:141): setgid, then
setuid, then the self-check `setuid(0)` whose success is the error `-EPERM`. -/
def change_to_sandbox_user (env : Env) (uid gid : Nat) : Int × List Sys :=
  match env (Sys.setgid gid) with
  | some e => (-(e : Int), [Sys.setgid gid])
  | none =>
    match env (Sys.setuid uid) with
    | some e => (-(e : Int), [Sys.setgid gid, Sys.setuid uid])
    | none =>
      match env (Sys.setuid 0) with
      | none => (-EPERM, [Sys.setgid gid, Sys.setuid uid, Sys.setuid 0])
      | some _ => (0, [Sys.setgid gid, Sys.setuid uid, Sys.setuid 0])

/-! ## Child pipelines -/

/-- Pipeline stages of the child-side builders. -/
inductive Stage where
  | namespaces
  | mounts
  | seccomp
  | caps
  | rlimits
  | userchange
  | privcheck
  | chrootS
  | exec
deriving DecidableEq

/-- Terminal observation of a forked child: `_exit(code)` or a successful
`exec` handoff. -/
inductive ChildOutcome where
  | exited (code : Nat)
  | execed
deriving DecidableEq

/-- The unshare flag word hard-coded in secure_sandbox_fixed.c:173
(NEWNS|NEWPID|NEWNET|NEWUTS|NEWIPC|NEWUSER). -/
def unshareFlagsFixed : Nat :=
  0x00020000 ||| 0x20000000 ||| 0x40000000 ||| 0x04000000 ||| 0x08000000 ||| 0x10000000

/-- `validate_sandbox_config` (secure_sandbox_fixed.c:34), for a non-null
config: reject an empty program (`-EINVAL`) and a uid-0 target when the
caller is not uid 0 (`-EPERM`). -/
def validate_sandbox_config (cfg : SandboxConfig) (callerUid : Nat) : Int :=
  if cfg.program_nonempty = false then -EINVAL
  else if cfg.uid = 0 ∧ callerUid ≠ 0 then -EPERM
  else 0

/-- The child half of `create_secure_sandbox` (secure_sandbox_fixed.c:171):
unshare, mounts, seccomp, capability drop, resource limits, user change, then
exec; each `ret < 0` runs `_exit(EXIT_FAILURE)` at once.  The second
component lists the stages that were entered, in order. -/
def child_fixed (env : Env) (cfg : SandboxConfig) : ChildOutcome × List Stage :=
  match env (Sys.unshare unshareFlagsFixed) with
  | some _ => (ChildOutcome.exited EXIT_FAILURE, [Stage.namespaces])
  | none =>
    if (setup_sandbox_mounts env cfg).1 < 0 then
      (ChildOutcome.exited EXIT_FAILURE, [Stage.namespaces, Stage.mounts])
    else if (apply_seccomp_filter env).1 < 0 then
      (ChildOutcome.exited EXIT_FAILURE, [Stage.namespaces, Stage.mounts, Stage.seccomp])
    else if (drop_all_capabilities_except env cfg.required_caps).1 < 0 then
      (ChildOutcome.exited EXIT_FAILURE,
       [Stage.namespaces, Stage.mounts, Stage.seccomp, Stage.caps])
    else if (apply_resource_limits env cfg.limits).1 < 0 then
      (ChildOutcome.exited EXIT_FAILURE,
       [Stage.namespaces, Stage.mounts, Stage.seccomp, Stage.caps, Stage.rlimits])
    else if (change_to_sandbox_user env cfg.uid cfg.gid).1 < 0 then
      (ChildOutcome.exited EXIT_FAILURE,
       [Stage.namespaces, Stage.mounts, Stage.seccomp, Stage.caps, Stage.rlimits,
        Stage.userchange])
    else
      match env Sys.execCall with
      | none =>
        (ChildOutcome.execed,
         [Stage.namespaces, Stage.mounts, Stage.seccomp, Stage.caps, Stage.rlimits,
          Stage.userchange, Stage.exec])
      | some _ =>
        (ChildOutcome.exited EXIT_FAILURE,
         [Stage.namespaces, Stage.mounts, Stage.seccomp, Stage.caps, Stage.rlimits,
          Stage.userchange, Stage.exec])

/-- Result of `create_secure_sandbox` in the parent: an error return without
any fork, or a fork whose child runs the pipeline. -/
inductive CreateResult where
  | err (code : Int)
  | spawned (child : ChildOutcome × List Stage)
deriving DecidableEq

/-- `create_secure_sandbox` (secure_sandbox_fixed.c:158), for a non-null
config.  Translated exactly as written: the guard is
`!validate_sandbox_config(config)`, i.e. the function returns `-EINVAL`
precisely when validation RETURNS 0 (success), and forks otherwise. -/
def create_secure_sandbox (env : Env) (cfg : SandboxConfig) (callerUid : Nat) :
    CreateResult :=
  if validate_sandbox_config cfg callerUid = 0 then CreateResult.err (-EINVAL)
  else
    match env Sys.fork with
    | some e => CreateResult.err (-(e : Int))
    | none => CreateResult.spawned (child_fixed env cfg)

/-! ## Phase3 pipeline (secure_sandbox.c) -/

/-- Config of the phase3 sandbox (sandbox_config_t, strings elided;
`chroot_dir_present` mirrors the null test on `config->chroot_dir`). -/
structure SandboxConfig3 where
  uid : Nat
  gid : Nat
  chroot_dir_present : Bool
deriving DecidableEq

/-- `setup_namespaces` (phase3 secure_sandbox.c:93): unshare six namespaces,
then remount /proc; the proc remount failure is tolerated (warning only). -/
def setup_namespaces (env : Env) : Int × List Sys :=
  match env (Sys.unshare unshareFlagsFixed) with
  | some _ => (-1, [Sys.unshare unshareFlagsFixed])
  | none => (0, [Sys.unshare unshareFlagsFixed, Sys.mountProc])

/-- `set_resource_limits` (phase3 secure_sandbox.c:130): fixed AS/NPROC/NOFILE
ceilings, each failure returning `-1`. -/
def set_resource_limits (env : Env) : Int × List Sys :=
  match env (Sys.setrlimit RRes.as (512 * 1024 * 1024) (512 * 1024 * 1024)) with
  | some _ => (-1, [Sys.setrlimit RRes.as (512 * 1024 * 1024) (512 * 1024 * 1024)])
  | none =>
    match env (Sys.setrlimit RRes.nproc 64 64) with
    | some _ =>
      (-1, [Sys.setrlimit RRes.as (512 * 1024 * 1024) (512 * 1024 * 1024),
            Sys.setrlimit RRes.nproc 64 64])
    | none =>
      match env (Sys.setrlimit RRes.nofile 256 256) with
      | some _ =>
        (-1, [Sys.setrlimit RRes.as (512 * 1024 * 1024) (512 * 1024 * 1024),
              Sys.setrlimit RRes.nproc 64 64, Sys.setrlimit RRes.nofile 256 256])
      | none =>
        (0, [Sys.setrlimit RRes.as (512 * 1024 * 1024) (512 * 1024 * 1024),
             Sys.setrlimit RRes.nproc 64 64, Sys.setrlimit RRes.nofile 256 256])

/-- `drop_capabilities_manual` (phase3 secure_sandbox.c:110): drop bounding-set
capabilities 0..37 ignoring failures, then PR_SET_NO_NEW_PRIVS whose failure
returns `-1`. -/
def drop_capabilities_manual (env : Env) : Int × List Sys :=
  match env Sys.prctlNNP with
  | some _ => (-1, (List.range 38).map Sys.capbsetDrop ++ [Sys.prctlNNP])
  | none => (0, (List.range 38).map Sys.capbsetDrop ++ [Sys.prctlNNP])

/-- The uid/gid change of the phase3 child (secure_sandbox.c:206): setgid only
when gid > 0, setuid only when uid > 0, each failure fatal. -/
def userChange3 (env : Env) (uid gid : Nat) : Int × List Sys :=
  if 0 < gid then
    match env (Sys.setgid gid) with
    | some e => (-(e : Int), [Sys.setgid gid])
    | none =>
      if 0 < uid then
        match env (Sys.setuid uid) with
        | some e => (-(e : Int), [Sys.setgid gid, Sys.setuid uid])
        | none => (0, [Sys.setgid gid, Sys.setuid uid])
      else (0, [Sys.setgid gid])
  else
    if 0 < uid then
      match env (Sys.setuid uid) with
      | some e => (-(e : Int), [Sys.setuid uid])
      | none => (0, [Sys.setuid uid])
    else (0, [])

/-- The chroot block of the phase3 child (secure_sandbox.c:182): chroot then
chdir("/"), each failure fatal. -/
def chrootBlock (env : Env) : Int × List Sys :=
  match env Sys.chrootCall with
  | some _ => (-1, [Sys.chrootCall])
  | none =>
    match env Sys.chdirRoot with
    | some _ => (-1, [Sys.chrootCall, Sys.chdirRoot])
    | none => (0, [Sys.chrootCall, Sys.chdirRoot])

/-- Tail of the phase3 child after namespaces and optional chroot
(secure_sandbox.c:193): resource limits, capability drop, uid/gid change,
seccomp, exec — in that order. -/
def child_phase3_rest (env : Env) (cfg : SandboxConfig3) (pre : List Stage) :
    ChildOutcome × List Stage :=
  if (set_resource_limits env).1 < 0 then
    (ChildOutcome.exited EXIT_FAILURE, pre ++ [Stage.rlimits])
  else if (drop_capabilities_manual env).1 < 0 then
    (ChildOutcome.exited EXIT_FAILURE, pre ++ [Stage.rlimits, Stage.caps])
  else if (userChange3 env cfg.uid cfg.gid).1 < 0 then
    (ChildOutcome.exited EXIT_FAILURE, pre ++ [Stage.rlimits, Stage.caps, Stage.userchange])
  else if (install_seccomp_filter env).1 < 0 then
    (ChildOutcome.exited EXIT_FAILURE,
     pre ++ [Stage.rlimits, Stage.caps, Stage.userchange, Stage.seccomp])
  else
    match env Sys.execCall with
    | none =>
      (ChildOutcome.execed,
       pre ++ [Stage.rlimits, Stage.caps, Stage.userchange, Stage.seccomp, Stage.exec])
    | some _ =>
      (ChildOutcome.exited EXIT_FAILURE,
       pre ++ [Stage.rlimits, Stage.caps, Stage.userchange, Stage.seccomp, Stage.exec])

/-- The child half of the phase3 `create_secure_sandbox`
(secure_sandbox.c:172): namespaces, optional chroot, then
`child_phase3_rest`. -/
def child_phase3 (env : Env) (cfg : SandboxConfig3) : ChildOutcome × List Stage :=
  if (setup_namespaces env).1 < 0 then
    (ChildOutcome.exited EXIT_FAILURE, [Stage.namespaces])
  else if cfg.chroot_dir_present then
    if (chrootBlock env).1 < 0 then
      (ChildOutcome.exited EXIT_FAILURE, [Stage.namespaces, Stage.chrootS])
    else child_phase3_rest env cfg [Stage.namespaces, Stage.chrootS]
  else child_phase3_rest env cfg [Stage.namespaces]

/-! ## App sandbox (app_sandbox.c) -/

/-- App policy of app_sandbox.h (path strings elided; `file_count` and
`syscall_count` are the array bounds the validator checks). -/
structure AppPolicy where
  app_name_nonempty : Bool
  sandbox_uid : Nat
  sandbox_gid : Nat
  allowed_capabilities : Nat
  file_count : Nat
  syscall_count : Nat
  memory_limit : Nat
  cpu_limit : Nat
  network_access : Bool
deriving DecidableEq

/-- `validate_app_policy` (app_sandbox.c:31). -/
def validate_app_policy (p : AppPolicy) : Int :=
  if p.app_name_nonempty = false then -EINVAL
  else if p.sandbox_uid = 0 then -EPERM
  else if p.memory_limit = 0 ∨ p.cpu_limit = 0 then -EINVAL
  else if p.file_count > 128 then -EINVAL
  else if p.syscall_count > 64 then -EINVAL
  else 0

/-- The unshare flags of the app child (app_sandbox.c:148):
NEWNS|NEWPID|NEWUTS|NEWIPC, plus NEWNET when the policy denies network. -/
def appNsFlags (p : AppPolicy) : Nat :=
  if p.network_access then 0x00020000 ||| 0x20000000 ||| 0x04000000 ||| 0x08000000
  else (0x00020000 ||| 0x20000000 ||| 0x04000000 ||| 0x08000000) ||| 0x40000000

/-- The bind-mount loop of `setup_app_filesystem` (app_sandbox.c:72): one bind
mount per allowed file, every failure skipped with `continue`. -/
def bindMounts (count : Nat) : List Sys :=
  (List.range count).map Sys.mountBind

/-- `setup_app_filesystem` (app_sandbox.c:55): remount root private, tmpfs on
/tmp, then the tolerated bind mounts. -/
def setup_app_filesystem (env : Env) (p : AppPolicy) : Int × List Sys :=
  match env Sys.mountRoot with
  | some e => (-(e : Int), [Sys.mountRoot])
  | none =>
    match env Sys.mountTmp with
    | some e => (-(e : Int), [Sys.mountRoot, Sys.mountTmp])
    | none => (0, Sys.mountRoot :: Sys.mountTmp :: bindMounts p.file_count)

/-- `apply_app_resource_limits` (app_sandbox.c:99): RLIMIT_AS and RLIMIT_CPU
unconditionally from the policy, then RLIMIT_NOFILE fixed at 64 and
RLIMIT_NPROC fixed at 1. -/
def apply_app_resource_limits (env : Env) (p : AppPolicy) : Int × List Sys :=
  mandLimit env RRes.as p.memory_limit
    (mandLimit env RRes.cpu p.cpu_limit
      (mandLimit env RRes.nofile 64
        (mandLimit env RRes.nproc 1 (0, []))))

/-- The child half of `create_app_sandbox` (app_sandbox.c:144): namespaces,
filesystem, seccomp, capability drop, resource limits, setgid-or-setuid
failure exit, `setuid(0)` regain check whose SUCCESS exits, then exec. -/
def child_app (env : Env) (p : AppPolicy) : ChildOutcome × List Stage :=
  match env (Sys.unshare (appNsFlags p)) with
  | some _ => (ChildOutcome.exited EXIT_FAILURE, [Stage.namespaces])
  | none =>
    if (setup_app_filesystem env p).1 < 0 then
      (ChildOutcome.exited EXIT_FAILURE, [Stage.namespaces, Stage.mounts])
    else if (apply_app_seccomp env).1 < 0 then
      (ChildOutcome.exited EXIT_FAILURE, [Stage.namespaces, Stage.mounts, Stage.seccomp])
    else if (secureos_cap_drop_all_except env p.allowed_capabilities).1 < 0 then
      (ChildOutcome.exited EXIT_FAILURE,
       [Stage.namespaces, Stage.mounts, Stage.seccomp, Stage.caps])
    else if (apply_app_resource_limits env p).1 < 0 then
      (ChildOutcome.exited EXIT_FAILURE,
       [Stage.namespaces, Stage.mounts, Stage.seccomp, Stage.caps, Stage.rlimits])
    else
      match env (Sys.setgid p.sandbox_gid) with
      | some _ =>
        (ChildOutcome.exited EXIT_FAILURE,
         [Stage.namespaces, Stage.mounts, Stage.seccomp, Stage.caps, Stage.rlimits,
          Stage.userchange])
      | none =>
        match env (Sys.setuid p.sandbox_uid) with
        | some _ =>
          (ChildOutcome.exited EXIT_FAILURE,
           [Stage.namespaces, Stage.mounts, Stage.seccomp, Stage.caps, Stage.rlimits,
            Stage.userchange])
        | none =>
          match env (Sys.setuid 0) with
          | none =>
            (ChildOutcome.exited EXIT_FAILURE,
             [Stage.namespaces, Stage.mounts, Stage.seccomp, Stage.caps, Stage.rlimits,
              Stage.userchange, Stage.privcheck])
          | some _ =>
            match env Sys.execCall with
            | none =>
              (ChildOutcome.execed,
               [Stage.namespaces, Stage.mounts, Stage.seccomp, Stage.caps, Stage.rlimits,
                Stage.userchange, Stage.privcheck, Stage.exec])
            | some _ =>
              (ChildOutcome.exited EXIT_FAILURE,
               [Stage.namespaces, Stage.mounts, Stage.seccomp, Stage.caps, Stage.rlimits,
                Stage.userchange, Stage.privcheck, Stage.exec])

/-! ## Stage-order reference semantics -/

/-- Reference stage runner: attempt each stage in list order, entering a stage
only when every earlier one succeeded, and stop at the first failure.  Returns
whether all stages succeeded plus the stages entered, in order. -/
def runStages (step : Stage → Int) : List Stage → Bool × List Stage
  | [] => (true, [])
  | s :: rest =>
    if step s < 0 then (false, [s])
    else ((runStages step rest).1, s :: (runStages step rest).2)

/-- The setup-stage order the fixed pipeline claims: namespaces, mounts,
seccomp, capability drop, resource limits, privilege drop. -/
def fixedSetupOrder : List Stage :=
  [Stage.namespaces, Stage.mounts, Stage.seccomp, Stage.caps, Stage.rlimits,
   Stage.userchange]

/-- Per-stage result of the fixed pipeline under a given oracle. -/
def stageResultFixed (env : Env) (cfg : SandboxConfig) : Stage → Int
  | Stage.namespaces =>
    match env (Sys.unshare unshareFlagsFixed) with
    | some _ => -1
    | none => 0
  | Stage.mounts => (setup_sandbox_mounts env cfg).1
  | Stage.seccomp => (apply_seccomp_filter env).1
  | Stage.caps => (drop_all_capabilities_except env cfg.required_caps).1
  | Stage.rlimits => (apply_resource_limits env cfg.limits).1
  | Stage.userchange => (change_to_sandbox_user env cfg.uid cfg.gid).1
  | _ => 0

/-- Reference semantics of the fixed child: run `fixedSetupOrder` with
fail-fast, then exec; any failure is `_exit(EXIT_FAILURE)`. -/
def fixedPipelineSpec (env : Env) (cfg : SandboxConfig) : ChildOutcome × List Stage :=
  if (runStages (stageResultFixed env cfg) fixedSetupOrder).1 then
    match env Sys.execCall with
    | none =>
      (ChildOutcome.execed,
       (runStages (stageResultFixed env cfg) fixedSetupOrder).2 ++ [Stage.exec])
    | some _ =>
      (ChildOutcome.exited EXIT_FAILURE,
       (runStages (stageResultFixed env cfg) fixedSetupOrder).2 ++ [Stage.exec])
  else
    (ChildOutcome.exited EXIT_FAILURE,
     (runStages (stageResultFixed env cfg) fixedSetupOrder).2)

/-- Setup-stage order actually used by the phase3 pipeline: namespaces,
optional chroot, resource limits, capability drop, privilege drop, seccomp. -/
def phase3SetupOrder (cfg : SandboxConfig3) : List Stage :=
  Stage.namespaces ::
    ((if cfg.chroot_dir_present then [Stage.chrootS] else []) ++
     [Stage.rlimits, Stage.caps, Stage.userchange, Stage.seccomp])

/-- Per-stage result of the phase3 pipeline under a given oracle. -/
def stageResult3 (env : Env) (cfg : SandboxConfig3) : Stage → Int
  | Stage.namespaces => (setup_namespaces env).1
  | Stage.chrootS => (chrootBlock env).1
  | Stage.rlimits => (set_resource_limits env).1
  | Stage.caps => (drop_capabilities_manual env).1
  | Stage.userchange => (userChange3 env cfg.uid cfg.gid).1
  | Stage.seccomp => (install_seccomp_filter env).1
  | _ => 0

/-- Reference semantics of the phase3 child: run `phase3SetupOrder` with
fail-fast, then exec. -/
def phase3PipelineSpec (env : Env) (cfg : SandboxConfig3) : ChildOutcome × List Stage :=
  if (runStages (stageResult3 env cfg) (phase3SetupOrder cfg)).1 then
    match env Sys.execCall with
    | none =>
      (ChildOutcome.execed,
       (runStages (stageResult3 env cfg) (phase3SetupOrder cfg)).2 ++ [Stage.exec])
    | some _ =>
      (ChildOutcome.exited EXIT_FAILURE,
       (runStages (stageResult3 env cfg) (phase3SetupOrder cfg)).2 ++ [Stage.exec])
  else
    (ChildOutcome.exited EXIT_FAILURE,
     (runStages (stageResult3 env cfg) (phase3SetupOrder cfg)).2)

/-! ## Termination (app_sandbox.c) -/

/-- Observable state of a sandbox child process: still running, exited but not
yet reaped (zombie), or fully reaped/nonexistent. -/
inductive PState where
  | running
  | zombie
  | gone
deriving DecidableEq

/-- `terminate_app_sandbox` (app_sandbox.c:251), for a non-null context.
`kill(pid, SIGTERM)` fails with ESRCH when the process no longer exists;
otherwise the code sleeps (`dies` says whether a running process exits during
the grace period), polls with `waitpid(WNOHANG)` — reaping a zombie — and
falls back to SIGKILL plus a blocking reap.  Returns the C result and the
process state afterwards. -/
def terminate_app_sandbox (st : PState) (dies : Bool) : Int × PState :=
  if st = PState.gone then (-ESRCH, st)
  else
    let afterGrace := if st = PState.running ∧ dies then PState.zombie else st
    match afterGrace with
    | PState.zombie => (0, PState.gone)
    | PState.running => (0, PState.gone)
    | PState.gone => (0, PState.gone)

/-! ## Security monitor (security_monitor.c) -/

/-- MAX_EVENTS (security_monitor.h:7). -/
def MAX_EVENTS : Nat := 10000

/-- enum security_event_type (security_monitor.h:10). -/
inductive SecEventType where
  | processStart
  | processExit
  | fileAccess
  | networkConnection
  | privilegeEscalation
  | policyViolation
  | anomalyDetected
deriving DecidableEq

/-- struct security_event (security_monitor.h:20); detail text as a character
list. -/
structure SecurityEvent where
  type : SecEventType
  timestamp : Nat
  pid : Nat
  uid : Nat
  details : List Char
  severity : Nat
deriving DecidableEq

/-- struct security_rule (security_monitor.h:31). -/
structure SecurityRule where
  rule_id : Nat
  event_type : SecEventType
  pattern : List Char
  action : Nat
  enabled : Bool
deriving DecidableEq

/-- The monitor's static state: the init flag, the event buffer and the rule
table (security_monitor.c:10). -/
structure MonitorState where
  initialized : Bool
  events : List SecurityEvent
  rules : List SecurityRule
deriving DecidableEq

/-- `match_rule_pattern` (security_monitor.c:91): `strstr(text, pattern)`,
i.e. the pattern occurs as a contiguous substring of the text. -/
def match_rule_pattern (pattern text : List Char) : Bool :=
  decide (pattern <:+: text)

/-- `add_security_event` (security_monitor.c:34): reject an uninitialized
monitor, a null event, or a full buffer with `-EINVAL`; otherwise stamp a zero
timestamp with the current time and append the event. -/
def add_security_event (st : MonitorState) (ev : Option SecurityEvent) (now : Nat) :
    Int × MonitorState :=
  if st.initialized = false then (-EINVAL, st)
  else
    match ev with
    | none => (-EINVAL, st)
    | some e =>
      if st.events.length ≥ MAX_EVENTS then (-EINVAL, st)
      else
        let stamped := if e.timestamp = 0 then { e with timestamp := now } else e
        (0, { st with events := st.events ++ [stamped] })

/-- The inner rule loop of `process_security_events` (security_monitor.c:106):
skip disabled rules and rules for a different event type, count a match when
the pattern occurs in the detail text, and always continue to the next rule. -/
def rulesLoop (e : SecurityEvent) : List SecurityRule → Nat
  | [] => 0
  | r :: rs =>
    if r.enabled = false ∨ r.event_type ≠ e.type then rulesLoop e rs
    else if match_rule_pattern r.pattern e.details then rulesLoop e rs + 1
    else rulesLoop e rs

/-- The outer event loop of `process_security_events` (security_monitor.c:103):
events in arrival order, all rules against each event. -/
def eventsLoop (rules : List SecurityRule) : List SecurityEvent → Nat
  | [] => 0
  | e :: es => rulesLoop e rules + eventsLoop rules es

/-- `process_security_events` (security_monitor.c:96). -/
def process_security_events (st : MonitorState) : Int :=
  if st.initialized = false then -EINVAL
  else (eventsLoop st.rules st.events : Nat)

/-- Modelled from the spec: a rule matches an event exactly when the rule is
enabled, its event type equals the event's type, and its pattern occurs as a
substring of the event's detail text. -/
def ruleMatchesSpec (r : SecurityRule) (e : SecurityEvent) : Bool :=
  r.enabled && decide (r.event_type = e.type) && decide (r.pattern <:+: e.details)

/-- Modelled from the spec: the total number of (event, rule) matches over the
whole buffer and rule table. -/
def totalMatches (st : MonitorState) : Nat :=
  (st.events.map (fun e => st.rules.countP (fun r => ruleMatchesSpec r e))).sum

/-! ## Concrete fixtures for witnesses and counterexamples -/

/-- Oracle under which every system call succeeds. -/
def envAllOk : Env := fun _ => none

/-- Oracle under which only `unshare` fails (errno 1). -/
def envNsFail : Env := fun s =>
  match s with
  | Sys.unshare _ => some 1
  | _ => none

/-- Oracle under which only the root remount fails (errno 13). -/
def envMountFail : Env := fun s =>
  match s with
  | Sys.mountRoot => some 13
  | _ => none

/-- Oracle under which only PR_SET_NO_NEW_PRIVS fails (errno 22). -/
def envNNPFail : Env := fun s =>
  match s with
  | Sys.prctlNNP => some 22
  | _ => none

/-- Oracle modelling a genuinely dropped privilege: `setuid(0)` fails with
EPERM, everything else succeeds. -/
def envDropOk : Env := fun s =>
  if s = Sys.setuid 0 then some 1 else none

/-- A limits struct with only the memory field set. -/
def limFix : SandboxLimits := ⟨1024, 0, 0, 0, 0⟩

/-- A well-formed non-root fixed-sandbox config used by witnesses. -/
def cfgBasic : SandboxConfig :=
  { program_nonempty := true, uid := 1000, gid := 1000, required_caps := 0,
    limits := ⟨0, 0, 0, 0, 0⟩, mounts := [] }

/-- A uid-0 fixed-sandbox config: the input on which the inverted validation
check of `create_secure_sandbox` forks anyway. -/
def cfgRoot : SandboxConfig :=
  { program_nonempty := true, uid := 0, gid := 0, required_caps := 0,
    limits := ⟨0, 0, 0, 0, 0⟩, mounts := [] }

/-- A phase3 config without chroot, target uid/gid 1000. -/
def cfg3Basic : SandboxConfig3 :=
  { uid := 1000, gid := 1000, chroot_dir_present := false }

/-- An app policy whose memory limit is zero. -/
def polMemZero : AppPolicy :=
  { app_name_nonempty := true, sandbox_uid := 1000, sandbox_gid := 1000,
    allowed_capabilities := 0, file_count := 0, syscall_count := 0,
    memory_limit := 0, cpu_limit := 5, network_access := false }

/-- A valid app policy used by witnesses. -/
def polBasic : AppPolicy :=
  { app_name_nonempty := true, sandbox_uid := 1000, sandbox_gid := 1000,
    allowed_capabilities := 0, file_count := 0, syscall_count := 0,
    memory_limit := 1024, cpu_limit := 5, network_access := false }

/-- A two-event, two-rule monitor state used by the event-processing witness. -/
def monBasic : MonitorState :=
  { initialized := true,
    events :=
      [{ type := SecEventType.policyViolation, timestamp := 1, pid := 7, uid := 0,
         details := ['d', 'e', 'n', 'y'], severity := 5 },
       { type := SecEventType.fileAccess, timestamp := 2, pid := 8, uid := 0,
         details := ['o', 'p', 'e', 'n'], severity := 1 }],
    rules :=
      [{ rule_id := 1, event_type := SecEventType.policyViolation,
         pattern := ['e', 'n'], action := 0, enabled := true },
       { rule_id := 2, event_type := SecEventType.fileAccess,
         pattern := ['e', 'n'], action := 1, enabled := true },
       { rule_id := 3, event_type := SecEventType.fileAccess,
         pattern := ['z'], action := 1, enabled := true }] }

/-! ## Helper lemmas -/

/-- The all-success oracle is well-formed. -/
theorem wfAllOk : ErrnoEnv envAllOk := fun _ _ h => nomatch h

/-- The dropped-privilege oracle is well-formed. -/
theorem wfDropOk : ErrnoEnv envDropOk := by
  intro s e h
  unfold envDropOk at h
  by_cases hs : s = Sys.setuid 0
  · simp [hs] at h
    omega
  · simp [hs] at h

/-- The capset payload of `secureos_cap_drop_all_except`, in closed form: the
zero / 0xFFFFFFFF case split collapses to the low and high 32-bit words of the
requested set. -/
theorem dropAllExceptWords_eq (req : Nat) :
    dropAllExceptWords req =
      (⟨req % 2 ^ 32, req % 2 ^ 32, 0⟩,
       ⟨req / 2 ^ 32 % 2 ^ 32, req / 2 ^ 32 % 2 ^ 32, 0⟩) := by
  have h32 : (2 : Nat) ^ 32 = 4294967296 := by norm_num
  unfold dropAllExceptWords
  by_cases h0 : req = 0
  · subst h0
    simp
  · rw [if_pos h0]
    by_cases hbig : req > 0xFFFFFFFF
    · rw [if_pos hbig]
    · rw [if_neg hbig]
      have hlt : req < 2 ^ 32 := by rw [h32]; omega
      have hd : req / 2 ^ 32 = 0 := Nat.div_eq_of_lt hlt
      rw [hd]
      simp

/-- Bit `i < 32` of the truncated low word is bit `i` of the request. -/
theorem lowWord_testBit (req i : Nat) (h1 : i < 32) :
    (req % 2 ^ 32).testBit i = req.testBit i := by
  rw [Nat.testBit_mod_two_pow, decide_eq_true h1, Bool.true_and]

/-- Bit `i - 32` of the truncated high word is bit `i` of the request, for
32 ≤ i < 64. -/
theorem highWord_testBit (req i : Nat) (h1 : ¬ i < 32) (h2 : i < 64) :
    (req / 2 ^ 32 % 2 ^ 32).testBit (i - 32) = req.testBit i := by
  have h3 : i - 32 < 32 := by omega
  rw [Nat.testBit_mod_two_pow, decide_eq_true h3, Bool.true_and,
    ← Nat.shiftRight_eq_div_pow, Nat.testBit_shiftRight]
  have h4 : 32 + (i - 32) = i := by omega
  rw [h4]

/-- Bits at or beyond 64 of a 64-bit request are clear. -/
theorem testBit_ge_64 (req i : Nat) (h : req < 2 ^ 64) (h2 : ¬ i < 64) :
    req.testBit i = false :=
  Nat.testBit_lt_two_pow
    (lt_of_lt_of_le h (Nat.pow_le_pow_right (by norm_num) (by omega)))

/-- Effective bits of the drop payload equal the requested bits. -/
theorem capBitEff_dropAll (req : Nat) (h : req < 2 ^ 64) (i : Nat) :
    capBitEff (dropAllExceptWords req) i = req.testBit i := by
  rw [dropAllExceptWords_eq]
  unfold capBitEff
  by_cases h1 : i < 32
  · rw [if_pos h1]
    exact lowWord_testBit req i h1
  · rw [if_neg h1]
    by_cases h2 : i < 64
    · rw [if_pos h2]
      exact highWord_testBit req i h1 h2
    · rw [if_neg h2, testBit_ge_64 req i h h2]

/-- Permitted bits of the drop payload equal the requested bits. -/
theorem capBitPerm_dropAll (req : Nat) (h : req < 2 ^ 64) (i : Nat) :
    capBitPerm (dropAllExceptWords req) i = req.testBit i := by
  rw [dropAllExceptWords_eq]
  unfold capBitPerm
  by_cases h1 : i < 32
  · rw [if_pos h1]
    exact lowWord_testBit req i h1
  · rw [if_neg h1]
    by_cases h2 : i < 64
    · rw [if_pos h2]
      exact highWord_testBit req i h1 h2
    · rw [if_neg h2, testBit_ge_64 req i h h2]

/-- The inheritable set of the drop payload is empty. -/
theorem capBitInh_dropAll (req : Nat) (i : Nat) :
    capBitInh (dropAllExceptWords req) i = false := by
  rw [dropAllExceptWords_eq]
  unfold capBitInh
  simp

/-! ## Claim C2 -/

/-- Claim C2: in each of the three seccomp installation paths
(`apply_seccomp_filter`, `apply_app_seccomp`, `install_seccomp_filter`),
PR_SET_NO_NEW_PRIVS is the first call and the seccomp installation follows it
immediately; when PR_SET_NO_NEW_PRIVS fails, the function returns at once with
the seccomp installation never attempted. -/
theorem claim_C2 (env : Env) :
    (∀ e, env Sys.prctlNNP = some e →
       apply_seccomp_filter env = (-(e : Int), [Sys.prctlNNP]) ∧
       apply_app_seccomp env = (-(e : Int), [Sys.prctlNNP]) ∧
       install_seccomp_filter env = (-1, [Sys.prctlNNP])) ∧
    (env Sys.prctlNNP = none →
       (apply_seccomp_filter env).2 = [Sys.prctlNNP, Sys.seccompStrict] ∧
       (apply_app_seccomp env).2 = [Sys.prctlNNP, Sys.seccompStrict] ∧
       (install_seccomp_filter env).2 = [Sys.prctlNNP, Sys.seccompFilter]) := by
  constructor
  · intro e he
    simp [apply_seccomp_filter, apply_app_seccomp, install_seccomp_filter, he]
  · intro h
    refine ⟨?_, ?_, ?_⟩
    · cases hs : env Sys.seccompStrict <;>
        simp [apply_seccomp_filter, h, hs]
    · cases hs : env Sys.seccompStrict <;>
        simp [apply_app_seccomp, h, hs]
    · cases hs : env Sys.seccompFilter <;>
        simp [install_seccomp_filter, h, hs]

/-- Witness for C2 at the oracle where PR_SET_NO_NEW_PRIVS fails with errno 22
and at the all-success oracle. -/
theorem claim_C2_witness :
    apply_seccomp_filter envNNPFail = (-(22 : Int), [Sys.prctlNNP]) ∧
    (apply_seccomp_filter envAllOk).2 = [Sys.prctlNNP, Sys.seccompStrict] := by
  have h1 := (claim_C2 envNNPFail).1 22 (by rfl)
  have h2 := (claim_C2 envAllOk).2 (by rfl)
  exact ⟨h1.1, h2.1⟩

/-! ## Claim C5 -/

/-- Claim C5: a successful `secureos_cap_drop_all_except` consists of exactly
a capget (the read) followed by a capset whose payload sets precisely the
requested bits in effective and permitted and clears inheritable — so no
capability bit outside the requested set remains in any of the three sets. -/
theorem claim_C5 (env : Env) (req : Nat) (wf : ErrnoEnv env) (h64 : req < 2 ^ 64)
    (hok : (secureos_cap_drop_all_except env req).1 = 0) :
    env Sys.capget = none ∧
    (secureos_cap_drop_all_except env req).2 =
      [Sys.capget, Sys.capset (dropAllExceptWords req).1 (dropAllExceptWords req).2] ∧
    (∀ i, capBitEff (dropAllExceptWords req) i = req.testBit i) ∧
    (∀ i, capBitPerm (dropAllExceptWords req) i = req.testBit i) ∧
    (∀ i, capBitInh (dropAllExceptWords req) i = false) := by
  cases hg : env Sys.capget with
  | some e =>
    have he := wf _ _ hg
    simp [secureos_cap_drop_all_except, hg] at hok
    omega
  | none =>
    cases hs : env (Sys.capset (dropAllExceptWords req).1 (dropAllExceptWords req).2) with
    | some e =>
      simp [secureos_cap_drop_all_except, hg, hs] at hok
    | none =>
      refine ⟨rfl, ?_, capBitEff_dropAll req h64, capBitPerm_dropAll req h64,
        capBitInh_dropAll req⟩
      simp [secureos_cap_drop_all_except, hg, hs]

/-- Witness for C5: request capability bit 3 only (value 8) under the
all-success oracle. -/
theorem claim_C5_witness :
    (secureos_cap_drop_all_except envAllOk 8).2 =
      [Sys.capget, Sys.capset (dropAllExceptWords 8).1 (dropAllExceptWords 8).2] ∧
    capBitEff (dropAllExceptWords 8) 3 = true ∧
    capBitEff (dropAllExceptWords 8) 7 = false := by
  have h := claim_C5 envAllOk 8 wfAllOk (by norm_num) (by decide)
  refine ⟨h.2.1, ?_, ?_⟩
  · rw [h.2.2.1 3]
    decide
  · rw [h.2.2.1 7]
    decide

/-! ## Claim C7 -/

/-- Counterexample to C7 as stated: terminate a zombie (already-exited)
instance — it returns 0 and reaps — then terminate the same instance again:
the second call returns -ESRCH, an error distinct from the first outcome, so
terminate is not an idempotent no-op on already-terminal instances. -/
theorem claim_C7_counterexample :
    (terminate_app_sandbox PState.zombie false).1 = 0 ∧
    (terminate_app_sandbox (terminate_app_sandbox PState.zombie false).2 false).1 =
      -ESRCH ∧
    (-ESRCH : Int) ≠ 0 := by decide

/-- Claim C7 (amended): `terminate_app_sandbox` always leaves the process
reaped; it returns 0 whenever the process still existed (running or zombie)
and -ESRCH once the process has been reaped, so a second terminate on an
already-terminated instance yields an error rather than the first call's
outcome. -/
theorem claim_C7_amended (st : PState) (dies : Bool) :
    terminate_app_sandbox st dies =
      (if st = PState.gone then -ESRCH else 0, PState.gone) := by
  cases st <;> cases dies <;> decide

/-! ## Claim C9 -/

/-- The inner rule loop counts exactly the enabled, type-matching,
pattern-matching rules. -/
theorem rulesLoop_eq_countP (e : SecurityEvent) (rs : List SecurityRule) :
    rulesLoop e rs = rs.countP (fun r => ruleMatchesSpec r e) := by
  induction rs with
  | nil => simp [rulesLoop]
  | cons r rest ih =>
    rw [List.countP_cons]
    by_cases h1 : r.enabled = false ∨ r.event_type ≠ e.type
    · have hm : ruleMatchesSpec r e = false := by
        unfold ruleMatchesSpec
        rcases h1 with h | h <;> simp [h]
      simp [rulesLoop, h1, hm, ih]
    · push_neg at h1
      obtain ⟨hen, hty⟩ := h1
      have hen' : r.enabled = true := by
        cases hr : r.enabled
        · exact absurd hr hen
        · rfl
      by_cases h2 : match_rule_pattern r.pattern e.details
      · have hm : ruleMatchesSpec r e = true := by
          unfold ruleMatchesSpec
          unfold match_rule_pattern at h2
          simp [hen', hty, h2]
        simp [rulesLoop, hen', hty, h2, hm, ih]
      · have hm : ruleMatchesSpec r e = false := by
          unfold ruleMatchesSpec
          unfold match_rule_pattern at h2
          simp [hen', hty, h2]
        simp [rulesLoop, hen', hty, h2, hm, ih]

/-- The outer event loop sums the per-event rule-match counts. -/
theorem eventsLoop_eq_sum (rules : List SecurityRule) (evs : List SecurityEvent) :
    eventsLoop rules evs =
      (evs.map (fun e => rules.countP (fun r => ruleMatchesSpec r e))).sum := by
  induction evs with
  | nil => simp [eventsLoop]
  | cons e rest ih => simp [eventsLoop, rulesLoop_eq_countP, ih]

/-- Claim C9: on an initialized monitor, `process_security_events` evaluates
every enabled rule against every buffered event in arrival order — no match
short-circuits the others — a rule matching exactly when its event type equals
the event's type and its pattern occurs as a substring of the detail text, and
it returns the total number of (event, rule) matches. -/
theorem claim_C9 (st : MonitorState) (h : st.initialized = true) :
    process_security_events st = (totalMatches st : Int) := by
  unfold process_security_events totalMatches
  rw [h]
  simp [eventsLoop_eq_sum]

/-- Witness for C9: a two-event, three-rule monitor where exactly two
(event, rule) pairs match. -/
theorem claim_C9_witness : process_security_events monBasic = 2 := by
  have h := claim_C9 monBasic (by rfl)
  rw [h]
  decide

/-! ## Claim C10 -/

/-- Claim C10: `add_security_event` rejects an uninitialized monitor, a null
event, and a full buffer with -EINVAL leaving the state untouched; on success
it appends exactly one event (the old buffer is preserved as a prefix, the
count grows by one, the rule table is untouched), and the buffer never exceeds
MAX_EVENTS. -/
theorem claim_C10 (st : MonitorState) (ev : Option SecurityEvent) (now : Nat) :
    (st.initialized = false → add_security_event st ev now = (-EINVAL, st)) ∧
    (ev = none → add_security_event st ev now = (-EINVAL, st)) ∧
    (∀ e, ev = some e → st.events.length ≥ MAX_EVENTS →
       add_security_event st ev now = (-EINVAL, st)) ∧
    (∀ e, ev = some e → st.initialized = true → st.events.length < MAX_EVENTS →
       (add_security_event st ev now).1 = 0 ∧
       (add_security_event st ev now).2.events.length = st.events.length + 1 ∧
       st.events <+: (add_security_event st ev now).2.events ∧
       (add_security_event st ev now).2.rules = st.rules) ∧
    (st.events.length ≤ MAX_EVENTS →
       (add_security_event st ev now).2.events.length ≤ MAX_EVENTS) := by
  refine ⟨?_, ?_, ?_, ?_, ?_⟩
  · intro h
    simp [add_security_event, h]
  · intro h
    subst h
    cases hi : st.initialized <;> simp [add_security_event, hi]
  · intro e he hfull
    subst he
    cases hi : st.initialized
    · simp [add_security_event, hi]
    · simp [add_security_event, hi, hfull]
  · intro e he hi hlt
    subst he
    have hnf : ¬ st.events.length ≥ MAX_EVENTS := by omega
    refine ⟨?_, ?_, ?_, ?_⟩ <;>
      simp [add_security_event, hi, hnf]
  · intro hle
    cases hi : st.initialized
    · simp [add_security_event, hi]
      omega
    · cases ev with
      | none => simp [add_security_event, hi]; omega
      | some e =>
        by_cases hfull : st.events.length ≥ MAX_EVENTS
        · simp [add_security_event, hi, hfull]
          omega
        · simp [add_security_event, hi, hfull]
          omega

/-- Witness for C10: adding one event to the two-event initialized monitor
succeeds and grows the buffer to three. -/
theorem claim_C10_witness :
    (add_security_event monBasic
        (some { type := SecEventType.processStart, timestamp := 0, pid := 1, uid := 2,
                details := ['x'], severity := 3 }) 9).1 = 0 ∧
    (add_security_event monBasic
        (some { type := SecEventType.processStart, timestamp := 0, pid := 1, uid := 2,
                details := ['x'], severity := 3 }) 9).2.events.length =
      monBasic.events.length + 1 := by
  have h := (claim_C10 monBasic
    (some { type := SecEventType.processStart, timestamp := 0, pid := 1, uid := 2,
            details := ['x'], severity := 3 }) 9).2.2.2.1
    { type := SecEventType.processStart, timestamp := 0, pid := 1, uid := 2,
      details := ['x'], severity := 3 } rfl rfl (by decide)
  exact ⟨h.1, h.2.1⟩

/-! ## Claim C1 -/

/-- The fixed child pipeline is exactly the fail-fast run of the claimed
stage order followed by exec. -/
theorem child_fixed_eq_spec (env : Env) (cfg : SandboxConfig) :
    child_fixed env cfg = fixedPipelineSpec env cfg := by
  unfold child_fixed fixedPipelineSpec fixedSetupOrder
  cases hu : env (Sys.unshare unshareFlagsFixed) <;>
    by_cases h2 : (setup_sandbox_mounts env cfg).1 < 0 <;>
    by_cases h3 : (apply_seccomp_filter env).1 < 0 <;>
    by_cases h4 : (drop_all_capabilities_except env cfg.required_caps).1 < 0 <;>
    by_cases h5 : (apply_resource_limits env cfg.limits).1 < 0 <;>
    by_cases h6 : (change_to_sandbox_user env cfg.uid cfg.gid).1 < 0 <;>
    cases he : env Sys.execCall <;>
    simp [runStages, stageResultFixed, hu, h2, h3, h4, h5, h6, he]

/-- The phase3 child pipeline is exactly the fail-fast run of its own stage
order (resource limits before capability drop, seccomp after the privilege
drop) followed by exec. -/
theorem child_phase3_eq_spec (env : Env) (cfg : SandboxConfig3) :
    child_phase3 env cfg = phase3PipelineSpec env cfg := by
  unfold child_phase3 phase3PipelineSpec phase3SetupOrder child_phase3_rest
  cases hc : cfg.chroot_dir_present <;>
    by_cases h1 : (setup_namespaces env).1 < 0 <;>
    by_cases h2 : (chrootBlock env).1 < 0 <;>
    by_cases h3 : (set_resource_limits env).1 < 0 <;>
    by_cases h4 : (drop_capabilities_manual env).1 < 0 <;>
    by_cases h5 : (userChange3 env cfg.uid cfg.gid).1 < 0 <;>
    by_cases h6 : (install_seccomp_filter env).1 < 0 <;>
    cases he : env Sys.execCall <;>
    simp [runStages, stageResult3, hc, h1, h2, h3, h4, h5, h6, he]

/-- Counterexample to C1 as stated: under the all-success oracle, the phase3
child (one of the two cited pipelines) enters its stages in the order
namespaces, resource limits, capability drop, privilege drop, seccomp, exec —
which is not an initial run of the claimed order namespaces, mounts, seccomp,
capability drop, resource limits, privilege drop, exec. -/
theorem claim_C1_counterexample :
    (child_phase3 envAllOk cfg3Basic).2 =
      [Stage.namespaces, Stage.rlimits, Stage.caps, Stage.userchange, Stage.seccomp,
       Stage.exec] ∧
    ¬ (child_phase3 envAllOk cfg3Basic).2 <+:
        [Stage.namespaces, Stage.mounts, Stage.seccomp, Stage.caps, Stage.rlimits,
         Stage.userchange, Stage.exec] := by decide

/-- Claim C1 (amended): both cited child pipelines enter each stage only on
success of all previous stages and exit with a fixed non-zero code on any
stage failure; the fixed pipeline follows the claimed order (namespaces,
mounts, seccomp, capability drop, resource limits, privilege drop, exec),
while the phase3 pipeline applies resource limits before the capability drop
and installs seccomp after the privilege drop. -/
theorem claim_C1_amended (env : Env) (cfg : SandboxConfig) (cfg3 : SandboxConfig3) :
    child_fixed env cfg = fixedPipelineSpec env cfg ∧
    child_phase3 env cfg3 = phase3PipelineSpec env cfg3 :=
  ⟨child_fixed_eq_spec env cfg, child_phase3_eq_spec env cfg3⟩

/-! ## Claim C8 -/

/-- Every terminal outcome of the fixed child is either a successful exec or
an exit with EXIT_FAILURE. -/
theorem child_fixed_outcomes (env : Env) (cfg : SandboxConfig) :
    (child_fixed env cfg).1 = ChildOutcome.execed ∨
    (child_fixed env cfg).1 = ChildOutcome.exited EXIT_FAILURE := by
  unfold child_fixed
  cases hu : env (Sys.unshare unshareFlagsFixed) <;>
    by_cases h2 : (setup_sandbox_mounts env cfg).1 < 0 <;>
    by_cases h3 : (apply_seccomp_filter env).1 < 0 <;>
    by_cases h4 : (drop_all_capabilities_except env cfg.required_caps).1 < 0 <;>
    by_cases h5 : (apply_resource_limits env cfg.limits).1 < 0 <;>
    by_cases h6 : (change_to_sandbox_user env cfg.uid cfg.gid).1 < 0 <;>
    cases he : env Sys.execCall <;>
    simp [hu, h2, h3, h4, h5, h6, he]

/-- Every terminal outcome of the app child is either a successful exec or an
exit with EXIT_FAILURE. -/
theorem child_app_outcomes (env : Env) (p : AppPolicy) :
    (child_app env p).1 = ChildOutcome.execed ∨
    (child_app env p).1 = ChildOutcome.exited EXIT_FAILURE := by
  unfold child_app
  cases hu : env (Sys.unshare (appNsFlags p)) <;>
    by_cases h2 : (setup_app_filesystem env p).1 < 0 <;>
    by_cases h3 : (apply_app_seccomp env).1 < 0 <;>
    by_cases h4 : (secureos_cap_drop_all_except env p.allowed_capabilities).1 < 0 <;>
    by_cases h5 : (apply_app_resource_limits env p).1 < 0 <;>
    cases hg : env (Sys.setgid p.sandbox_gid) <;>
    cases husr : env (Sys.setuid p.sandbox_uid) <;>
    cases h0 : env (Sys.setuid 0) <;>
    cases he : env Sys.execCall <;>
    simp [hu, h2, h3, h4, h5, hg, husr, h0, he]

/-- Counterexample to C8 as stated: a namespace-stage failure and a
mount-stage failure are different failing stages (their entered-stage traces
differ) yet both exit the fixed child with the same code EXIT_FAILURE, so
the failure stages do not have distinct exit codes. -/
theorem claim_C8_counterexample :
    (child_fixed envNsFail cfgBasic).1 = ChildOutcome.exited EXIT_FAILURE ∧
    (child_fixed envMountFail cfgBasic).1 = ChildOutcome.exited EXIT_FAILURE ∧
    (child_fixed envNsFail cfgBasic).2 ≠ (child_fixed envMountFail cfgBasic).2 := by
  decide

/-- Claim C8 (amended): every stage failure in the two cited child pipelines
exits with the same fixed non-zero code EXIT_FAILURE (1); the codes are
non-zero but not distinct per stage, so the supervisor's wait status shows
that setup failed but not which stage failed. -/
theorem claim_C8_amended :
    (∀ (env : Env) (cfg : SandboxConfig) (c : Nat),
       (child_fixed env cfg).1 = ChildOutcome.exited c → c = EXIT_FAILURE) ∧
    (∀ (env : Env) (p : AppPolicy) (c : Nat),
       (child_app env p).1 = ChildOutcome.exited c → c = EXIT_FAILURE) := by
  constructor
  · intro env cfg c h
    rcases child_fixed_outcomes env cfg with ho | ho
    · rw [h] at ho
      exact absurd ho (by simp)
    · rw [h] at ho
      injection ho
  · intro env p c h
    rcases child_app_outcomes env p with ho | ho
    · rw [h] at ho
      exact absurd ho (by simp)
    · rw [h] at ho
      injection ho

/-- Witness for C8: the namespace-failure oracle makes the fixed child exit
with code 1 = EXIT_FAILURE. -/
theorem claim_C8_witness :
    (child_fixed envNsFail cfgBasic).1 = ChildOutcome.exited 1 ∧ 1 = EXIT_FAILURE :=
  ⟨by decide, claim_C8_amended.1 envNsFail cfgBasic 1 (by decide)⟩

/-! ## Claim C3 -/

/-- Claim C3 (code bug): `validate_sandbox_config` itself correctly returns
-EPERM for a uid-0 policy and a non-root caller, but `create_secure_sandbox`
tests `!validate_sandbox_config(config)`, so precisely the configs that FAIL
validation reach `fork` (and the child pipeline), while every config that
passes validation is rejected with -EINVAL without forking. -/
theorem claim_C3_code_bug :
    validate_sandbox_config cfgRoot 1000 = -EPERM ∧
    create_secure_sandbox envAllOk cfgRoot 1000 =
      CreateResult.spawned (child_fixed envAllOk cfgRoot) ∧
    create_secure_sandbox envAllOk cfgBasic 1000 = CreateResult.err (-EINVAL) := by
  refine ⟨by decide, ?_, by decide⟩
  have hv : validate_sandbox_config cfgRoot 1000 ≠ 0 := by decide
  simp [create_secure_sandbox, hv, envAllOk]

/-! ## Claim C4 -/

/-- Under a well-formed oracle where regaining uid 0 would succeed, the
privilege-drop step always reports an error. -/
theorem change_user_neg (env : Env) (wf : ErrnoEnv env) (u g : Nat)
    (h0 : env (Sys.setuid 0) = none) :
    (change_to_sandbox_user env u g).1 < 0 := by
  unfold change_to_sandbox_user
  cases hg : env (Sys.setgid g) with
  | some e =>
    have := wf _ _ hg
    simp
    omega
  | none =>
    cases husr : env (Sys.setuid u) with
    | some e =>
      have := wf _ _ husr
      simp
      omega
    | none =>
      rw [h0]
      show (-EPERM : Int) < 0
      decide

/-- Claim C4: the privilege-drop step issues setgid, then setuid, then the
`setuid(0)` regain attempt, in that order; it returns 0 exactly when both
drops succeed and the regain attempt fails; when the regain attempt would
succeed it returns -EPERM, and neither cited child pipeline can then reach a
successful exec. -/
theorem claim_C4 (env : Env) (wf : ErrnoEnv env) :
    (∀ u g, (change_to_sandbox_user env u g).1 = 0 ↔
       (env (Sys.setgid g) = none ∧ env (Sys.setuid u) = none ∧
        env (Sys.setuid 0) ≠ none)) ∧
    (∀ u g, env (Sys.setgid g) = none → env (Sys.setuid u) = none →
       env (Sys.setuid 0) = none →
       change_to_sandbox_user env u g =
         (-EPERM, [Sys.setgid g, Sys.setuid u, Sys.setuid 0])) ∧
    (∀ cfg, env (Sys.setuid 0) = none →
       (child_fixed env cfg).1 ≠ ChildOutcome.execed) ∧
    (∀ p, env (Sys.setuid 0) = none →
       (child_app env p).1 ≠ ChildOutcome.execed) := by
  refine ⟨?_, ?_, ?_, ?_⟩
  · intro u g
    unfold change_to_sandbox_user
    cases hg : env (Sys.setgid g) with
    | some e =>
      have := wf _ _ hg
      simp [hg]
      omega
    | none =>
      cases husr : env (Sys.setuid u) with
      | some e =>
        have := wf _ _ husr
        simp [hg, husr]
        omega
      | none =>
        cases h0 : env (Sys.setuid 0) with
        | some e => simp [hg, husr, h0]
        | none => simp [hg, husr, h0, EPERM]
  · intro u g hg husr h0
    unfold change_to_sandbox_user
    rw [hg, husr, h0]
  · intro cfg h0 hex
    have hneg := change_user_neg env wf cfg.uid cfg.gid h0
    unfold child_fixed at hex
    cases hu : env (Sys.unshare unshareFlagsFixed) <;> rw [hu] at hex <;>
      split_ifs at hex <;> simp_all <;>
      (cases he : env Sys.execCall <;> rw [he] at hex <;> simp_all)
  · intro p h0 hex
    unfold child_app at hex
    cases hu : env (Sys.unshare (appNsFlags p)) <;> rw [hu] at hex <;>
      split_ifs at hex <;> simp_all <;>
      (cases hg : env (Sys.setgid p.sandbox_gid) <;> rw [hg] at hex <;>
       simp_all <;>
       (cases husr : env (Sys.setuid p.sandbox_uid) <;> rw [husr] at hex <;>
        simp_all <;> rw [h0] at hex <;> simp_all))

/-- Witness for C4: with everything succeeding except (or including)
`setuid(0)`, the concrete outcomes match the claim. -/
theorem claim_C4_witness :
    (change_to_sandbox_user envDropOk 1000 1000).1 = 0 ∧
    change_to_sandbox_user envAllOk 1000 1000 =
      (-EPERM, [Sys.setgid 1000, Sys.setuid 1000, Sys.setuid 0]) ∧
    (child_fixed envAllOk cfgBasic).1 ≠ ChildOutcome.execed := by
  refine ⟨?_, ?_, ?_⟩
  · exact ((claim_C4 envDropOk wfDropOk).1 1000 1000).mpr
      ⟨by decide, by decide, by decide⟩
  · exact (claim_C4 envAllOk wfAllOk).2.1 1000 1000 rfl rfl rfl
  · exact (claim_C4 envAllOk wfAllOk).2.2.1 cfgBasic rfl

/-! ## Claim C6 -/

/-- An unconditional limit block is one fail-fast step. -/
theorem mandLimit_runLimits (env : Env) (r : RRes) (v : Nat) (L : List (RRes × Nat)) :
    mandLimit env r v (runLimits env L) = runLimits env ((r, v) :: L) := by
  unfold mandLimit
  cases henv : env (Sys.setrlimit r v v) <;> simp [runLimits, henv]

/-- A guarded limit block is the fail-fast run of its zero-or-singleton list
prepended to the rest. -/
theorem tryLimit_runLimits (env : Env) (r : RRes) (v : Nat) (L : List (RRes × Nat)) :
    tryLimit env r v (runLimits env L) =
      runLimits env ((if v = 0 then [] else [(r, v)]) ++ L) := by
  by_cases hv : v = 0
  · simp [tryLimit, hv]
  · rw [if_neg hv]
    unfold tryLimit
    rw [if_neg hv]
    exact mandLimit_runLimits env r v L

/-- `apply_resource_limits` runs exactly the non-zero limits in order. -/
theorem apply_resource_limits_eq (env : Env) (l : SandboxLimits) :
    apply_resource_limits env l = runLimits env (expectedLimits l) := by
  have h0 : ((0 : Int), ([] : List Sys)) = runLimits env [] := rfl
  unfold apply_resource_limits expectedLimits
  rw [h0, tryLimit_runLimits, tryLimit_runLimits, tryLimit_runLimits, tryLimit_runLimits,
    tryLimit_runLimits]

/-- A fail-fast limit run returns 0 exactly when every listed setrlimit
succeeds. -/
theorem runLimits_ok (env : Env) (wf : ErrnoEnv env) (L : List (RRes × Nat)) :
    (runLimits env L).1 = 0 ↔ ∀ q ∈ L, env (Sys.setrlimit q.1 q.2 q.2) = none := by
  induction L with
  | nil => simp [runLimits]
  | cons q rest ih =>
    obtain ⟨r, v⟩ := q
    unfold runLimits
    cases henv : env (Sys.setrlimit r v v) with
    | some e =>
      have := wf _ _ henv
      simp [henv]
      omega
    | none =>
      simp [henv, ih]

/-- Selector from resource to the corresponding policy field. -/
theorem expectedLimits_mem (l : SandboxLimits) (r : RRes) (v : Nat) :
    (r, v) ∈ expectedLimits l ↔ (v ≠ 0 ∧ limitField l r = v) := by
  cases r <;> simp [expectedLimits, limitField] <;> omega

/-- Counterexample to C6 as stated: the cited app-sandbox resource-limit
stage, given a policy whose memory field is zero, still issues an
address-space setrlimit (with soft = hard = 0) instead of leaving that limit
unconstrained. -/
theorem claim_C6_counterexample :
    polMemZero.memory_limit = 0 ∧
    Sys.setrlimit RRes.as 0 0 ∈ (apply_app_resource_limits envAllOk polMemZero).2 := by
  decide

/-- Claim C6 (amended): the generic stage `apply_resource_limits` applies each
of the five limits (soft = hard = the field's value) exactly when the policy
field is non-zero, in source order, any setrlimit failure aborting the stage
with the OS error, and it succeeds exactly when every issued setrlimit
succeeds; the app-sandbox stage `apply_app_resource_limits` instead applies
the policy's memory and CPU fields unconditionally plus fixed open-file (64)
and process (1) ceilings, with no file-size limit, failures equally fatal. -/
theorem claim_C6_amended :
    (∀ (env : Env) (l : SandboxLimits),
       apply_resource_limits env l = runLimits env (expectedLimits l)) ∧
    (∀ (l : SandboxLimits) (r : RRes) (v : Nat),
       (r, v) ∈ expectedLimits l ↔ (v ≠ 0 ∧ limitField l r = v)) ∧
    (∀ (env : Env) (l : SandboxLimits), ErrnoEnv env →
       ((apply_resource_limits env l).1 = 0 ↔
         ∀ q ∈ expectedLimits l, env (Sys.setrlimit q.1 q.2 q.2) = none)) ∧
    (∀ (env : Env) (p : AppPolicy),
       apply_app_resource_limits env p =
         runLimits env [(RRes.as, p.memory_limit), (RRes.cpu, p.cpu_limit),
                        (RRes.nofile, 64), (RRes.nproc, 1)]) := by
  refine ⟨apply_resource_limits_eq, expectedLimits_mem, ?_, ?_⟩
  · intro env l wf
    rw [apply_resource_limits_eq]
    exact runLimits_ok env wf (expectedLimits l)
  · intro env p
    have h0 : ((0 : Int), ([] : List Sys)) = runLimits env [] := rfl
    unfold apply_app_resource_limits
    rw [h0, mandLimit_runLimits, mandLimit_runLimits, mandLimit_runLimits,
      mandLimit_runLimits]

/-- Witness for C6: with only the memory field set, the generic stage issues
exactly one address-space setrlimit and succeeds under the all-success
oracle. -/
theorem claim_C6_witness :
    apply_resource_limits envAllOk limFix =
      runLimits envAllOk (expectedLimits limFix) ∧
    ((RRes.as, (1024 : Nat)) ∈ expectedLimits limFix ↔
      ((1024 : Nat) ≠ 0 ∧ limitField limFix RRes.as = 1024)) ∧
    ((apply_resource_limits envAllOk limFix).1 = 0 ↔
      ∀ q ∈ expectedLimits limFix, envAllOk (Sys.setrlimit q.1 q.2 q.2) = none) ∧
    apply_app_resource_limits envAllOk polBasic =
      runLimits envAllOk [(RRes.as, polBasic.memory_limit),
                          (RRes.cpu, polBasic.cpu_limit),
                          (RRes.nofile, 64), (RRes.nproc, 1)] :=
  ⟨claim_C6_amended.1 envAllOk limFix,
   claim_C6_amended.2.1 limFix RRes.as 1024,
   claim_C6_amended.2.2.1 envAllOk limFix wfAllOk,
   claim_C6_amended.2.2.2 envAllOk polBasic⟩

end OS1
